import Mathlib

/-!
Verification of the Slacktable reaction-to-record pipeline.

Shallow embedding of the program:
  * `app/config.py`      → `Settings`, `getattrSettings`
  * `app/slack/handlers.py` → `get_assignee_name`, `handle_reaction_added`,
    `extract_image_attachments`, `create_airtable_record`, `EMOJI_DESTINATION_MAP`
  * `app/airtable/client.py` → `AirtableClient.create_record`,
    `AirtableClient.upload_attachments`, `AirtableClient.create_record_with_attachments`
  * `app/slack/client.py` → `get_message_info` (message resolver)
  * `app/main.py`        → `verify_slack_signature`, `slack_events`

External collaborators (the Slack web API, the Airtable HTTP API, HMAC-SHA256,
the JSON parser) are modelled as function-valued parameters of an `Env` record:
the code under verification only forwards to them, so their behaviour is
abstract input to every theorem.  Python exceptions that the source code can
raise and catch are made explicit: a fallible step returns `Option`/`Except`,
and a `try/except` block is a `match`.  Handlers additionally return a ghost
trace (`List Call`) recording which outbound client calls were made; the trace
is instrumentation of the control flow only and carries no semantic weight.
-/

/-- Result of Python truthiness on an optional string: `None` and `""` are falsy. -/
def pyTruthy : Option String → Bool
  | none => false
  | some s => !s.isEmpty

/-- A Python exception kind relevant to the embedded code paths. -/
inductive PyErr
  | valueError
deriving DecidableEq, Repr

/-- A nonempty all-decimal-digit character list read as a natural number;
anything else is `none`. -/
def decimalDigitsToNat (cs : List Char) : Option Nat :=
  if cs.isEmpty || !(cs.all Char.isDigit) then none
  else some (cs.foldl (fun acc c => acc * 10 + (c.toNat - 48)) 0)

/-- Models Python `int(s)` on a decimal string: optional surrounding
whitespace, optional sign, then decimal digits.  Returns `none` where `int()`
raises `ValueError`.  (Python also accepts underscore digit separators and
non-ASCII digits; those exotic inputs are not modelled and not used by any
claim.) -/
def pyIntOfString (s : String) : Option Int :=
  let cs := ((s.toList.dropWhile Char.isWhitespace).reverse.dropWhile Char.isWhitespace).reverse
  match cs with
  | '-' :: rest => (decimalDigitsToNat rest).map (fun n => -(n : Int))
  | '+' :: rest => (decimalDigitsToNat rest).map (fun n => (n : Int))
  | rest => (decimalDigitsToNat rest).map (fun n => (n : Int))

/-- The application settings as declared by `Settings` in `app/config.py`
(lines 15-38).  Exactly these fields are declared; in particular there is no
`slack_user_map` and no `changelog_airtable_*` field. -/
structure Settings where
  slack_bot_token : String
  slack_signing_secret : String
  slack_app_token : String
  airtable_api_token : String
  airtable_base_id : String
  airtable_table_name : String
  airtable_field_name : String
  environment : String
  log_level : String
  target_emoji : String
deriving DecidableEq, Repr, Inhabited

/-- Models Python `getattr(settings, key)` for a pydantic `BaseSettings`
instance: a declared field yields its value, any other attribute name raises
`AttributeError`, modelled as `none`. -/
def getattrSettings (s : Settings) : String → Option String
  | "slack_bot_token" => some s.slack_bot_token
  | "slack_signing_secret" => some s.slack_signing_secret
  | "slack_app_token" => some s.slack_app_token
  | "airtable_api_token" => some s.airtable_api_token
  | "airtable_base_id" => some s.airtable_base_id
  | "airtable_table_name" => some s.airtable_table_name
  | "airtable_field_name" => some s.airtable_field_name
  | "environment" => some s.environment
  | "log_level" => some s.log_level
  | "target_emoji" => some s.target_emoji
  | _ => none

/-- A Slack file object, as read by `extract_image_attachments`
(`handlers.py:205-218`): `mimetype` via `.get("mimetype", "")` (absent = `""`),
`url_private` and `name` via `.get`. -/
structure SlackFile where
  mimetype : String
  url_private : Option String
  name : Option String
deriving DecidableEq, Repr

/-- A Slack message object, restricted to the keys the program reads:
`ts` (always present on platform messages), `text` via `.get("text", "")`
(absent = `""`), `user`, `thread_ts`, `reply_count` via `.get("reply_count", 0)`,
and `files` via `.get("files", [])`. -/
structure SlackMessage where
  ts : String
  text : String
  user : Option String
  thread_ts : Option String
  reply_count : Nat
  files : List SlackFile
deriving DecidableEq, Repr, Inhabited

/-- The `item` sub-object of a reaction event (`event["item"]`). -/
structure ReactionItem where
  channel : Option String
  ts : Option String
  thread_ts : Option String
deriving DecidableEq, Repr, Inhabited

/-- A Slack reaction event payload, restricted to the keys the handlers read. -/
structure ReactionEvent where
  type : Option String
  reaction : Option String
  user : Option String
  item : Option ReactionItem
deriving DecidableEq, Repr, Inhabited

/-- The envelope of an Events API request body (`event_data` in `main.py`). -/
structure Envelope where
  type : Option String
  challenge : Option String
  event : Option ReactionEvent
deriving DecidableEq, Repr, Inhabited

/-- One value of the `EMOJI_DESTINATION_MAP` dictionary (`handlers.py:26-66`).
Note there is no `multi_attachment_field` key anywhere in that dictionary. -/
structure EmojiConfig where
  base_id_key : String
  table_name_key : String
  field_name_key : String
  pain_score : Option String
  status : Option String
deriving DecidableEq, Repr

/-- The `EMOJI_DESTINATION_MAP` dictionary (`handlers.py:26-66`), keyed by
exact emoji name. -/
def EMOJI_DESTINATION_MAP : String → Option EmojiConfig
  | "papercut-small" =>
      some ⟨"airtable_base_id", "airtable_table_name", "airtable_field_name", some "sm", none⟩
  | "papercut-md" =>
      some ⟨"airtable_base_id", "airtable_table_name", "airtable_field_name", some "md", none⟩
  | "papercut-big" =>
      some ⟨"airtable_base_id", "airtable_table_name", "airtable_field_name", some "lg", none⟩
  | "papercut-immediate-in-progress" =>
      some ⟨"airtable_base_id", "airtable_table_name", "airtable_field_name", some "lg",
        some "In Progress"⟩
  | "fedex" =>
      some ⟨"airtable_base_id", "airtable_table_name", "airtable_field_name", none, none⟩
  | "changelog" =>
      some ⟨"changelog_airtable_base_id", "changelog_airtable_table_name",
        "changelog_airtable_field_name", none, none⟩
  | _ => none

/-- `reaction not in EMOJI_DESTINATION_MAP` with `reaction = event.get("reaction")`:
a missing reaction key (`None`) is not in the dictionary. -/
def lookupEmojiConfig : Option String → Option EmojiConfig
  | none => none
  | some r => EMOJI_DESTINATION_MAP r

/-- An attachment reference as handed to / produced by the Airtable layer:
a Python dict with optional `filename`, `content` (raw bytes) and `url` keys.
`extract_image_attachments` produces dicts with `filename` and `url`;
`AirtableClient.upload_attachments` reads `filename` and `content`. -/
structure PyAttachment where
  filename : Option String
  content : Option (List Nat)
  url : Option String
deriving DecidableEq, Repr

/-- An uploaded-attachment object `{url, filename}` as appended by
`AirtableClient.upload_attachments` (`client.py:77-80`). -/
structure AttachmentRef where
  url : String
  filename : String
deriving DecidableEq, Repr

/-- A value stored in an Airtable record field map. -/
inductive FieldValue
  | text (s : String)
  | attachments (refs : List AttachmentRef)
deriving DecidableEq, Repr

/-- A Python dict of record fields, as an insertion-ordered association list. -/
abbrev Fields := List (String × FieldValue)

/-- Python dict assignment `d[k] = v`: replaces the value in place if the key
exists, otherwise appends at the end. -/
def dictInsert (fs : Fields) (k : String) (v : FieldValue) : Fields :=
  match fs with
  | [] => [(k, v)]
  | (k0, v0) :: rest => if k0 == k then (k, v) :: rest else (k0, v0) :: dictInsert rest k v

/-- `true` when the field map has an entry for the key. -/
def hasField (fs : Fields) (k : String) : Bool :=
  fs.any (fun p => p.1 == k)

/-- A created Airtable record: the opaque id assigned by the store, plus the
fields it was created with. -/
structure AirRecord where
  id : String
  fields : Fields
deriving DecidableEq, Repr

/-- Ghost trace of outbound client activity during dispatch:
`userInfoLookup` / `channelInfoLookup` mark the Slack enrichment calls,
`clientCreateRecord n` / `clientCreateWithAttachments n` mark an invocation of
the corresponding `AirtableClient` method with `n` positional arguments, and
`storeCreate fields` marks `self.table.create(fields)` actually executing. -/
inductive Call
  | userInfoLookup (user_id : String)
  | channelInfoLookup (channel_id : String)
  | clientCreateRecord (nargs : Nat)
  | clientCreateWithAttachments (nargs : Nat)
  | storeCreate (fields : Fields)
deriving DecidableEq, Repr

/-- The field maps actually handed to the record store (`table.create`). -/
def storeCreates (t : List Call) : List Fields :=
  t.filterMap fun c =>
    match c with
    | .storeCreate f => some f
    | _ => none

/-- The external collaborators of the pipeline, abstracted as functions:
Slack API responses, the Airtable store, HMAC-SHA256, and the JSON parser.
`historyAnchored c ts` is the response to
`conversations_history(channel=c, inclusive=True, oldest=ts, limit=1)`;
`historyRecent c` the response to `conversations_history(channel=c, limit=100)`;
`threadReplies c ts` the response to
`conversations_replies(channel=c, ts=ts, inclusive=True)`; an `Except.error`
models a `SlackApiError`.  `userMapParse raw uid` abstracts
`json.loads(raw).get(uid)` (including `json.JSONDecodeError`, as `none`).
`tableCreate` is `pyairtable` `Table.create`: `some id` on success, `none`
when the HTTP call fails.  `upload fn content` is the Airtable attachment
upload endpoint: `some url` on success. -/
structure Env where
  settings : Settings
  hmacSha256Hex : String → String → String
  jsonParse : String → Option Envelope
  historyAnchored : String → String → Except Unit (List SlackMessage)
  historyRecent : String → Except Unit (List SlackMessage)
  threadReplies : String → String → Except Unit (List SlackMessage)
  userInfo : String → Option String
  channelInfo : String → Option String
  userMapParse : String → String → Option String
  tableCreate : Fields → Option String
  upload : String → List Nat → Option String

/-- `get_assignee_name` (`handlers.py:69-85`): reads
`settings.slack_user_map`, parses it as JSON and looks up the user id; the
`except (json.JSONDecodeError, Exception)` clause converts any failure —
including the `AttributeError` from the attribute read — into `None`. -/
def get_assignee_name (s : Settings) (userMapParse : String → String → Option String)
    (user_id : String) : Option String :=
  match getattrSettings s "slack_user_map" with
  | none => none
  | some raw => userMapParse raw user_id

/-- `extract_image_attachments` (`handlers.py:191-222`): keeps files whose
mimetype starts with `image/` and that have a `url_private`, appending the bot
token as a query parameter; a missing name defaults to `screenshot.png`. -/
def extract_image_attachments (slack_bot_token : String) (files : List SlackFile) :
    List PyAttachment :=
  files.filterMap fun f =>
    if f.mimetype.startsWith "image/" then
      match f.url_private with
      | some url =>
          some { filename := some (f.name.getD "screenshot.png"),
                 content := none,
                 url := some (url ++ "?token=" ++ slack_bot_token) }
      | none => none
    else none

/-- Positional-call signature of a Python method (parameters after `self`). -/
structure PyFuncSig where
  numParams : Nat
  numDefaults : Nat
deriving DecidableEq, Repr

/-- A call with `nargs` positional arguments binds iff the count is between
the number of required parameters and the total number of parameters. -/
def acceptsPositional (f : PyFuncSig) (nargs : Nat) : Bool :=
  f.numParams - f.numDefaults ≤ nargs && nargs ≤ f.numParams

/-- Signature of `AirtableClient.create_record(self, fields)` (`client.py:23`):
one required positional parameter. -/
def create_record_sig : PyFuncSig := ⟨1, 0⟩

/-- Signature of `AirtableClient.create_record_with_attachments(self, fields,
image_attachments, attachment_field="Screenshot")` (`client.py:90`): three
positional parameters, the last with a default. -/
def create_record_with_attachments_sig : PyFuncSig := ⟨3, 1⟩

namespace AirtableClient

/-- `AirtableClient.create_record` (`client.py:23-40`): runs
`self.table.create(fields)`; an exception from the store yields `None`.
The trace records the `table.create` execution. -/
def create_record (env : Env) (fields : Fields) : Option AirRecord × List Call :=
  match env.tableCreate fields with
  | some rid => (some ⟨rid, fields⟩, [.storeCreate fields])
  | none => (none, [.storeCreate fields])

/-- `AirtableClient.upload_attachments` (`client.py:42-88`): for each
attachment dict, reads `filename` and `content` (a missing key raises
`KeyError`, caught by the per-item `except`, which `continue`s), uploads, and
collects `{url, filename}`; any per-item failure is skipped. -/
def upload_attachments (env : Env) (image_attachments : List PyAttachment) :
    List AttachmentRef :=
  image_attachments.filterMap fun a =>
    match a.filename, a.content with
    | some fn, some c =>
        match env.upload fn c with
        | some url => some ⟨url, fn⟩
        | none => none
    | _, _ => none

/-- `AirtableClient.create_record_with_attachments` (`client.py:90-115`):
uploads the attachments, stores any successfully uploaded ones under the
single `attachment_field` key (default `"Screenshot"`), then delegates to
`create_record`. -/
def create_record_with_attachments (env : Env) (fields : Fields)
    (image_attachments : List PyAttachment) (attachment_field : String) :
    Option AirRecord × List Call :=
  let fields :=
    if !image_attachments.isEmpty then
      let uploaded := upload_attachments env image_attachments
      if !uploaded.isEmpty then dictInsert fields attachment_field (.attachments uploaded)
      else fields
    else fields
  create_record env fields

end AirtableClient

/-- Which branch of `SlackClient.get_message_info` produced the result:
the direct top-level fetch (`client.py:61-70`) or the thread fallback scan
(`client.py:96-105`).  The Python code returns a bare message dict; this tag
is ghost instrumentation of the code path taken. -/
inductive FoundVia
  | top_level
  | thread
deriving DecidableEq, Repr

/-- The thread-fallback loop of `SlackClient.get_message_info`
(`client.py:84-112`): walk the recent window in returned order; for each
message with a nonzero reply count fetch its replies (a `SlackApiError` there
is caught and the loop continues) and return the first reply whose `ts` equals
the target. -/
def scanThreads (env : Env) (channel_id message_ts : String) :
    List SlackMessage → Option SlackMessage
  | [] => none
  | parent :: rest =>
    if parent.reply_count > 0 then
      match env.threadReplies channel_id parent.ts with
      | .error _ => scanThreads env channel_id message_ts rest
      | .ok thread =>
        match thread.find? (fun tm => tm.ts == message_ts) with
        | some tm => some tm
        | none => scanThreads env channel_id message_ts rest
    else scanThreads env channel_id message_ts rest

/-- `SlackClient.get_message_info` (`client.py:40-127`): first an inclusive
size-1 history fetch anchored at the timestamp — a nonempty response returns
its head; otherwise fetch the recent window (limit 100) and fall back to the
thread scan.  A `SlackApiError` from either history call is caught by the
outer `except` → `None`. -/
def get_message_info (env : Env) (channel_id message_ts : String) :
    Option (SlackMessage × FoundVia) :=
  match env.historyAnchored channel_id message_ts with
  | .error _ => none
  | .ok (m :: _) => some (m, .top_level)
  | .ok [] =>
    match env.historyRecent channel_id with
    | .error _ => none
    | .ok window =>
      match scanThreads env channel_id message_ts window with
      | some tm => some (tm, .thread)
      | none => none

/-- The field-map construction of `create_airtable_record`
(`handlers.py:252-267`): the configured text field and `"Status"`, then
`"Pain Score"` when the pain score is truthy, then `"Assignee"` when the
assignee name is truthy. -/
def buildRecordFields (field_name message_text status : String)
    (pain_score assignee_name : Option String) : Fields :=
  let fields := dictInsert (dictInsert [] field_name (.text message_text)) "Status" (.text status)
  let fields :=
    match pain_score with
    | some p => if p.isEmpty then fields else dictInsert fields "Pain Score" (.text p)
    | none => fields
  match assignee_name with
  | some a => if a.isEmpty then fields else dictInsert fields "Assignee" (.text a)
  | none => fields

/-- The logging context entries of `handle_reaction_added` that
`create_airtable_record` actually reads back (`handlers.py:239,260,265`). -/
structure HandlerContext where
  pain_score : Option String
  emoji_config : Option EmojiConfig
  assignee_name : Option String
deriving Repr

/-- `create_airtable_record` (`handlers.py:225-300`): resolves the destination
base/table/field names from settings via `getattr` (an undeclared attribute
raises `AttributeError`, caught by the enclosing `except` → `False`), builds
the field map, extracts image attachments, and invokes the Airtable client.
The call sites pass `(fields, image_attachments, base_id, table_name)` — four
positional arguments — respectively `(fields, base_id, table_name)` — three;
when the callee signature cannot bind that many positional arguments the call
raises `TypeError`, caught by the enclosing `except` → `False`. -/
def create_airtable_record (env : Env) (message_text : String) (message : SlackMessage)
    (context : HandlerContext) : Bool × List Call :=
  match context.emoji_config with
  | none => (false, [])
  | some cfg =>
    match getattrSettings env.settings cfg.base_id_key,
          getattrSettings env.settings cfg.table_name_key,
          getattrSettings env.settings cfg.field_name_key with
    | some base_id, some _table_name, some field_name =>
      let status := cfg.status.getD "Intake"
      let fields := buildRecordFields field_name message_text status
        context.pain_score context.assignee_name
      let image_attachments := extract_image_attachments env.settings.slack_bot_token message.files
      if image_attachments.isEmpty then
        if acceptsPositional create_record_sig 3 then
          let r := AirtableClient.create_record env fields
          (r.1.isSome, .clientCreateRecord 3 :: r.2)
        else (false, [.clientCreateRecord 3])
      else
        if acceptsPositional create_record_with_attachments_sig 4 then
          let r := AirtableClient.create_record_with_attachments env fields image_attachments base_id
          (r.1.isSome, .clientCreateWithAttachments 4 :: r.2)
        else (false, [.clientCreateWithAttachments 4])
    | _, _, _ => (false, [])

/-- `handle_reaction_added` (`handlers.py:88-188`): routes on the emoji
(unmapped → acknowledged `True` with no calls), validates required fields via
Python truthiness, resolves the message, rejects empty text, performs the
enrichment lookups, looks up the assignee, and delegates to
`create_airtable_record`.  Returns the Python result plus the ghost call
trace. -/
def handle_reaction_added (env : Env) (event : ReactionEvent) : Bool × List Call :=
  match lookupEmojiConfig event.reaction with
  | none => (true, [])
  | some cfg =>
    let item := event.item.getD default
    match event.user, item.channel, item.ts with
    | some u, some c, some ts =>
      if u.isEmpty || c.isEmpty || ts.isEmpty then (false, [])
      else
        match get_message_info env c ts with
        | none => (false, [])
        | some (message, _via) =>
          if message.text.isEmpty then (false, [])
          else
            let _user_info := env.userInfo u
            let _channel_info := env.channelInfo c
            let assignee_name := get_assignee_name env.settings env.userMapParse u
            let context : HandlerContext :=
              { pain_score := cfg.pain_score, emoji_config := some cfg,
                assignee_name := assignee_name }
            let r := create_airtable_record env message.text message context
            (r.1, .userInfoLookup u :: .channelInfoLookup c :: r.2)
    | _, _, _ => (false, [])

/-- `handle_reaction_removed` (`handlers.py:303-322`): logs and returns True. -/
def handle_reaction_removed (_event : ReactionEvent) : Bool := true

/-- `verify_slack_signature` (`main.py:38-66`): `int(timestamp)` raises
`ValueError` on a malformed string (not caught anywhere in `main.py`);
otherwise the request is rejected when `abs(now - ts) > 60 * 5`, else the
expected signature `v0=` + hex HMAC-SHA256 of `v0:{timestamp}:{body}` under
the signing secret is compared with `hmac.compare_digest` (a constant-time
equality; modelled as string equality — timing is outside the model). -/
def verify_slack_signature (hmacSha256Hex : String → String → String)
    (slack_signing_secret : String) (now : Int)
    (request_body timestamp signature : String) : Except PyErr Bool :=
  match pyIntOfString timestamp with
  | none => .error .valueError
  | some ts =>
    if 60 * 5 < (now - ts).natAbs then .ok false
    else
      let sig_basestring := "v0:" ++ timestamp ++ ":" ++ request_body
      let expected_signature := "v0=" ++ hmacSha256Hex slack_signing_secret sig_basestring
      .ok (expected_signature == signature)

/-- Response bodies the `/slack/events` endpoint can return with status 200. -/
inductive ResponseBody
  | statusOk
  | challengeEcho (challenge : Option String)
deriving DecidableEq, Repr

/-- The transport-level outcome of one `/slack/events` delivery:
`ok` (HTTP 200), `unauthorized` (`HTTPException` 401), `badRequest`
(`HTTPException` 400), `serverError` (a `JSONResponse` with status 500), or
`unhandledException` — an exception that escaped the handler body. -/
inductive HttpOutcome
  | ok (body : ResponseBody)
  | unauthorized (detail : String)
  | badRequest (detail : String)
  | serverError (detail : String)
  | unhandledException (e : PyErr)
deriving DecidableEq, Repr

/-- The `/slack/events` endpoint `slack_events` (`main.py:69-147`):
missing or empty signature headers → 401; signature verification failure →
401 (and a `ValueError` from `int(timestamp)` escapes uncaught); unparsable
JSON → 400; `url_verification` echoes the challenge; `event_callback`
dispatches `reaction_added` / `reaction_removed`, returning 200 on success
and a 500 `JSONResponse` on a `False` result; anything else → 200. -/
def slack_events (env : Env) (body : String)
    (timestampHeader signatureHeader : Option String) (now : Int) : HttpOutcome :=
  if !pyTruthy timestampHeader || !pyTruthy signatureHeader then
    .unauthorized "Missing signature headers"
  else
    match verify_slack_signature env.hmacSha256Hex env.settings.slack_signing_secret now
        body (timestampHeader.getD "") (signatureHeader.getD "") with
    | .error e => .unhandledException e
    | .ok false => .unauthorized "Invalid signature"
    | .ok true =>
      match env.jsonParse body with
      | none => .badRequest "Invalid JSON"
      | some event_data =>
        if event_data.type == some "url_verification" then
          .ok (.challengeEcho event_data.challenge)
        else if event_data.type == some "event_callback" then
          let event := event_data.event.getD default
          if event.type == some "reaction_added" then
            if (handle_reaction_added env event).1 then .ok .statusOk
            else .serverError "Failed to process event"
          else if event.type == some "reaction_removed" then
            if handle_reaction_removed event then .ok .statusOk
            else .serverError "Failed to process event"
          else .ok .statusOk
        else .ok .statusOk

/-! ### Concrete sample inputs used by witnesses and counterexamples -/

/-- A fully populated settings instance (all fields are required env vars). -/
def sampleSettings : Settings :=
  { slack_bot_token := "xoxb-token", slack_signing_secret := "secret",
    slack_app_token := "xapp-token", airtable_api_token := "key",
    airtable_base_id := "appBase", airtable_table_name := "Pain Points",
    airtable_field_name := "Description", environment := "development",
    log_level := "INFO", target_emoji := "fedex" }

/-- The resolved message of the C1 scenario: text, no files. -/
def sampleMessage : SlackMessage :=
  { ts := "1.0", text := "site is down", user := some "U2", thread_ts := none,
    reply_count := 0, files := [] }

/-- An environment in which every external collaborator cooperates: the
anchored history fetch finds the message, the user map would map `U1`, and the
record store would accept any creation. -/
def sampleEnv : Env :=
  { settings := sampleSettings,
    hmacSha256Hex := fun _ _ => "deadbeef",
    jsonParse := fun _ => none,
    historyAnchored := fun _ _ => .ok [sampleMessage],
    historyRecent := fun _ => .ok [],
    threadReplies := fun _ _ => .ok [],
    userInfo := fun _ => some "casey",
    channelInfo := fun _ => some "general",
    userMapParse := fun _ uid => if uid == "U1" then some "Casey" else none,
    tableCreate := fun _ => some "recNEW1",
    upload := fun fn _ => some ("https://content.airtable.com/" ++ fn) }

/-- A `papercut-big` reaction by `U1` on the sample message. -/
def sampleEvent : ReactionEvent :=
  { type := some "reaction_added", reaction := some "papercut-big", user := some "U1",
    item := some { channel := some "C1", ts := some "1.0", thread_ts := none } }

/-! ### Helper lemmas -/

/-- Membership after a dict assignment: the inserted key, or a previous key. -/
theorem hasField_dictInsert (fs : Fields) (k k2 : String) (v : FieldValue) :
    hasField (dictInsert fs k v) k2 = (k == k2 || hasField fs k2) := by
  induction fs with
  | nil => simp [dictInsert, hasField]
  | cons hd tl ih =>
    obtain ⟨k0, v0⟩ := hd
    by_cases h : (k0 == k) = true
    · have hk : k0 = k := eq_of_beq h
      subst hk
      simp only [dictInsert, h, if_true, hasField, List.any_cons] at *
      cases k0 == k2 <;> simp
    · simp only [dictInsert, h, if_false, hasField, List.any_cons, Bool.false_eq_true] at *
      rw [ih]
      cases k == k2 <;> cases k0 == k2 <;> simp

/-- Every path through `create_airtable_record` returns `False` without ever
executing `table.create`: the two call sites pass three respectively four
positional arguments, which neither client signature can bind, so each call
raises `TypeError` (caught → `False`); the `changelog` destination fails even
earlier because its settings keys are not declared attributes. -/
theorem create_airtable_record_fails (env : Env) (mt : String) (msg : SlackMessage)
    (ctx : HandlerContext) :
    (create_airtable_record env mt msg ctx).1 = false ∧
      storeCreates (create_airtable_record env mt msg ctx).2 = [] := by
  unfold create_airtable_record
  cases hc : ctx.emoji_config with
  | none => simp [storeCreates]
  | some cfg =>
    dsimp only
    cases hb : getattrSettings env.settings cfg.base_id_key with
    | none => simp [storeCreates]
    | some b =>
      cases htn : getattrSettings env.settings cfg.table_name_key with
      | none => simp [storeCreates]
      | some t =>
        cases hf : getattrSettings env.settings cfg.field_name_key with
        | none => simp [storeCreates]
        | some f =>
          dsimp only
          by_cases ha : (extract_image_attachments env.settings.slack_bot_token msg.files).isEmpty
          · simp [ha, show acceptsPositional create_record_sig 3 = false from rfl, storeCreates]
          · simp [ha, show acceptsPositional create_record_with_attachments_sig 4 = false from rfl,
              storeCreates]

/-! ### Claims -/

/-- C10: for every user id, `get_assignee_name` returns `None` and never
raises — the `Settings` class declares no `slack_user_map` field, so the
attribute read raises `AttributeError`, which the catch-all `except` clause
converts to `None` — and consequently the built record fields never receive an
`"Assignee"` entry (stated for any configured text field name other than the
literal `"Assignee"`, which would name a field so only by coincidence). -/
theorem c10_assignee_always_none (s : Settings) (parse : String → String → Option String)
    (uid fn mt st : String) (ps : Option String) :
    get_assignee_name s parse uid = none ∧
      (fn ≠ "Assignee" →
        hasField (buildRecordFields fn mt st ps (get_assignee_name s parse uid)) "Assignee"
          = false) := by
  have h0 : get_assignee_name s parse uid = none := rfl
  refine ⟨h0, fun hfn => ?_⟩
  rw [h0]
  have h1 : (("Status" : String) == "Assignee") = false := rfl
  have h2 : (("Pain Score" : String) == "Assignee") = false := rfl
  have h3 : (fn == "Assignee") = false := beq_eq_false_iff_ne.mpr hfn
  unfold buildRecordFields
  cases ps with
  | none =>
    rw [hasField_dictInsert, hasField_dictInsert]
    simp [hasField, h1, h3]
  | some p =>
    by_cases hp : p.isEmpty
    · simp only [hp, if_true]
      rw [hasField_dictInsert, hasField_dictInsert]
      simp [hasField, h1, h3]
    · simp only [hp, Bool.false_eq_true, if_false]
      rw [hasField_dictInsert, hasField_dictInsert, hasField_dictInsert]
      simp [hasField, h1, h2, h3]

/-- C10 witness: concrete instantiation of the assignee theorem. -/
theorem c10_assignee_always_none_witness :
    get_assignee_name sampleSettings (fun _ uid => if uid == "U1" then some "Casey" else none)
        "U1" = none ∧
      hasField (buildRecordFields "Description" "site is down" "Intake" (some "lg")
        (get_assignee_name sampleSettings
          (fun _ uid => if uid == "U1" then some "Casey" else none) "U1")) "Assignee" = false := by
  have h := c10_assignee_always_none sampleSettings
    (fun _ uid => if uid == "U1" then some "Casey" else none)
    "U1" "Description" "site is down" "Intake" (some "lg")
  exact ⟨h.1, h.2 (by decide)⟩

/-- C5: a reaction event whose emoji is not a key of `EMOJI_DESTINATION_MAP`
is acknowledged as a no-op success: `handle_reaction_added` returns `True`
with an empty call trace — no record-store call, no `OutboundRecord`. -/
theorem c5_unmapped_emoji_noop (env : Env) (event : ReactionEvent)
    (h : lookupEmojiConfig event.reaction = none) :
    handle_reaction_added env event = (true, []) := by
  unfold handle_reaction_added
  rw [h]

/-- C5 witness: a `thumbsup` reaction is acknowledged with zero calls. -/
theorem c5_unmapped_emoji_noop_witness :
    handle_reaction_added sampleEnv
      { type := some "reaction_added", reaction := some "thumbsup", user := some "U1",
        item := none } = (true, []) :=
  c5_unmapped_emoji_noop sampleEnv _ rfl

/-- C2: every reaction event that passes routing, required-field validation,
message resolution, and the non-empty-text check ends with
`handle_reaction_added` returning `False` and with `table.create` never
executed: the handler invokes `airtable_client.create_record(fields, base_id,
table_name)` or `create_record_with_attachments(fields, image_attachments,
base_id, table_name)`, but the client methods are declared
`create_record(fields)` and `create_record_with_attachments(fields,
image_attachments, attachment_field)`, so the calls raise `TypeError`
(the `changelog` route fails even earlier, on undeclared settings
attributes); the exception is caught and converted to the failure result. -/
theorem c2_submission_always_fails (env : Env) (event : ReactionEvent) (cfg : EmojiConfig)
    (u c ts : String) (msg : SlackMessage) (via : FoundVia)
    (hr : lookupEmojiConfig event.reaction = some cfg)
    (hu : event.user = some u) (hu2 : u.isEmpty = false)
    (hc : (event.item.getD default).channel = some c) (hc2 : c.isEmpty = false)
    (ht : (event.item.getD default).ts = some ts) (ht2 : ts.isEmpty = false)
    (hm : get_message_info env c ts = some (msg, via))
    (htext : msg.text.isEmpty = false) :
    (handle_reaction_added env event).1 = false ∧
      storeCreates (handle_reaction_added env event).2 = [] := by
  unfold handle_reaction_added
  rw [hr]
  dsimp only
  rw [hu, hc, ht]
  dsimp only
  simp only [hu2, hc2, ht2, Bool.or_self, Bool.or_false, Bool.false_or, if_false]
  rw [hm]
  dsimp only
  simp only [htext, Bool.false_eq_true, if_false]
  have h := create_airtable_record_fails env msg.text msg
    { pain_score := cfg.pain_score, emoji_config := some cfg,
      assignee_name := get_assignee_name env.settings env.userMapParse u }
  refine ⟨h.1, ?_⟩
  simpa [storeCreates] using h.2

/-- C2 witness: the fully cooperating sample environment still fails. -/
theorem c2_submission_always_fails_witness :
    (handle_reaction_added sampleEnv sampleEvent).1 = false ∧
      storeCreates (handle_reaction_added sampleEnv sampleEvent).2 = [] :=
  c2_submission_always_fails sampleEnv sampleEvent
    ⟨"airtable_base_id", "airtable_table_name", "airtable_field_name", some "lg", none⟩
    "U1" "C1" "1.0" sampleMessage .top_level rfl rfl rfl rfl rfl rfl rfl rfl rfl

/-- C1 (claimed: the `papercut-big` / `"site is down"` scenario submits an
`OutboundRecord` and creation succeeds): evaluating the pipeline at exactly
that scenario — message resolved with text `"site is down"` and no files, a
user map that maps the actor, a store that accepts any creation — the handler
returns `False`, the only record-store activity is the `TypeError`-raising
3-positional-argument `create_record` invocation, and `table.create` never
runs, so no record is created. -/
theorem c1_scenario_fails_on_code :
    handle_reaction_added sampleEnv sampleEvent
      = (false, [.userInfoLookup "U1", .channelInfoLookup "C1", .clientCreateRecord 3]) := by
  rfl

/-- C3: for a timestamp string that parses as an integer, `verify` returns
true iff the timestamp is within 300 seconds of now AND the supplied
signature equals `v0=` followed by the HMAC-SHA256 hex digest of
`v0:{timestamp}:{raw_body}` under the secret (`hmac.compare_digest`, a
constant-time comparison, modelled as string equality); and whenever the
timestamp is more than 300 seconds from now — past or future — `verify`
returns false regardless of the signature. -/
theorem c3_verify_characterization (hmacHex : String → String → String)
    (secret body tsStr sig : String) (now ts : Int)
    (hts : pyIntOfString tsStr = some ts) :
    (verify_slack_signature hmacHex secret now body tsStr sig = .ok true ↔
      ((now - ts).natAbs ≤ 300 ∧
        sig = "v0=" ++ hmacHex secret ("v0:" ++ tsStr ++ ":" ++ body))) ∧
    (300 < (now - ts).natAbs →
      verify_slack_signature hmacHex secret now body tsStr sig = .ok false) := by
  unfold verify_slack_signature
  rw [hts]
  dsimp only
  constructor
  · by_cases hw : 60 * 5 < (now - ts).natAbs
    · have hw2 : ¬(now - ts).natAbs ≤ 300 := by omega
      simp [hw, hw2]
    · have hw2 : (now - ts).natAbs ≤ 300 := by omega
      rw [if_neg hw]
      simp only [Except.ok.injEq, beq_iff_eq]
      exact ⟨fun h => ⟨hw2, h.symm⟩, fun h => h.2.symm⟩
  · intro hgt
    have hw : 60 * 5 < (now - ts).natAbs := by omega
    simp [hw]

/-- C3 witness: a matching signature inside the window verifies. -/
theorem c3_verify_characterization_witness :
    verify_slack_signature (fun _ _ => "d") "s" 10 "b" "10" "v0=d" = .ok true := by
  have h := c3_verify_characterization (fun _ _ => "d") "s" "b" "10" "v0=d" 10 10 (by decide)
  exact h.1.mpr ⟨by decide, rfl⟩

/-- C9 counterexample: a timestamp header that is not a well-formed number is
NOT rejected as unauthorized — the `ValueError` raised by `int(timestamp)`
inside `verify_slack_signature` escapes `slack_events` uncaught (the claim
says such a request results in a verification failure and never in an
uncaught exception). -/
theorem c9_malformed_timestamp_counterexample :
    slack_events sampleEnv "B" (some "abc") (some "v0=deadbeef") 0
      = .unhandledException .valueError := by
  rfl

/-- C9 amended: a missing (or empty) signature or timestamp header is
rejected as unauthorized without a crash, but a non-empty timestamp header
that is not a well-formed number raises an uncaught `ValueError` that escapes
the handler rather than yielding a verification failure. -/
theorem c9_header_handling_amended (env : Env) (body : String) (sigHdr : Option String)
    (now : Int) (tsStr : String)
    (h1 : pyIntOfString tsStr = none) (h2 : tsStr.isEmpty = false)
    (h3 : pyTruthy sigHdr = true) :
    slack_events env body none sigHdr now = .unauthorized "Missing signature headers" ∧
    slack_events env body (some tsStr) none now = .unauthorized "Missing signature headers" ∧
    slack_events env body (some tsStr) sigHdr now = .unhandledException .valueError := by
  refine ⟨rfl, ?_, ?_⟩
  · unfold slack_events
    simp [pyTruthy]
  · have hts2 : pyTruthy (some tsStr) = true := by
      simp [pyTruthy, h2]
    have hcond : (!pyTruthy (some tsStr) || !pyTruthy sigHdr) = false := by
      rw [hts2, h3]
      rfl
    unfold slack_events
    rw [hcond]
    simp only [Bool.false_eq_true, if_false]
    unfold verify_slack_signature
    simp only [Option.getD_some]
    rw [h1]

/-- C9 witness: instantiation of the amended header-handling theorem. -/
theorem c9_header_handling_amended_witness :
    slack_events sampleEnv "B" none (some "x") 0
        = .unauthorized "Missing signature headers" ∧
      slack_events sampleEnv "B" (some "abcd") none 0
        = .unauthorized "Missing signature headers" ∧
      slack_events sampleEnv "B" (some "abcd") (some "x") 0
        = .unhandledException .valueError :=
  c9_header_handling_amended sampleEnv "B" (some "x") 0 "abcd" (by decide) (by decide) (by decide)

/-- The event of the C8 counterexample: `reaction_added` for a mapped emoji,
but with no `item` object, so required fields are missing. -/
def c8Event : ReactionEvent :=
  { type := some "reaction_added", reaction := some "fedex", user := some "U1",
    item := none }

/-- The parsed body used by the C8 counterexample: an `event_callback`
envelope around `c8Event`. -/
def c8Envelope : Envelope :=
  { type := some "event_callback", challenge := none, event := some c8Event }

/-- The sample environment with a JSON parser yielding the C8 envelope. -/
def c8Env : Env := { sampleEnv with jsonParse := fun _ => some c8Envelope }

/-- C8 counterexample: a correctly signed, well-formed delivery whose
processing fails (missing required fields) is surfaced to the webhook sender
as an HTTP 500 response — not acknowledged as success as the claim states. -/
theorem c8_failure_surfaced_counterexample :
    slack_events c8Env "B" (some "0") (some "v0=deadbeef") 0
      = .serverError "Failed to process event" := by
  rfl

/-- C8 amended: Unauthorized (401) and BadRequest (400) are raised as HTTP
exceptions, and a processing failure of a `reaction_added` event — missing
fields, message not found, or record-store failure — is surfaced to the
sender as a 500 response while being logged; only a successful handling (and
the no-op outcomes) is acknowledged as success. -/
theorem c8_outcome_surfacing_amended (env : Env) (body : String)
    (tsHdr sigHdr : Option String) (now : Int) (d : Envelope)
    (h1 : pyTruthy tsHdr = true) (h2 : pyTruthy sigHdr = true)
    (hver : verify_slack_signature env.hmacSha256Hex env.settings.slack_signing_secret now
      body (tsHdr.getD "") (sigHdr.getD "") = .ok true)
    (hparse : env.jsonParse body = some d)
    (hdt : d.type = some "event_callback")
    (het : (d.event.getD default).type = some "reaction_added") :
    slack_events env body tsHdr sigHdr now =
      (if (handle_reaction_added env (d.event.getD default)).1 then .ok .statusOk
       else .serverError "Failed to process event") := by
  unfold slack_events
  rw [h1, h2]
  simp only [Bool.not_true, Bool.or_self, Bool.false_eq_true, if_false]
  rw [hver]
  dsimp only
  rw [hparse]
  dsimp only
  rw [hdt]
  simp only [show ((some "event_callback" : Option String) == some "url_verification") = false
      from rfl, Bool.false_eq_true, if_false,
    show ((some "event_callback" : Option String) == some "event_callback") = true from rfl,
    if_true]
  rw [het]
  simp only [show ((some "reaction_added" : Option String) == some "reaction_added") = true
    from rfl, if_true]

/-- C8 witness: instantiation of the amended surfacing theorem. -/
theorem c8_outcome_surfacing_amended_witness :
    slack_events c8Env "B" (some "0") (some "v0=deadbeef") 0 =
      (if (handle_reaction_added c8Env (c8Envelope.event.getD default)).1 then .ok .statusOk
       else .serverError "Failed to process event") :=
  c8_outcome_surfacing_amended c8Env "B" (some "0") (some "v0=deadbeef") 0 c8Envelope
    rfl rfl rfl rfl rfl rfl

/-- The resolved message of the C6 counterexample: empty text, no files. -/
def emptyTextMessage : SlackMessage :=
  { ts := "2.0", text := "", user := some "U2", thread_ts := none, reply_count := 0,
    files := [] }

/-- The sample environment whose anchored history fetch finds the empty-text
message. -/
def c6Env : Env := { sampleEnv with historyAnchored := fun _ _ => .ok [emptyTextMessage] }

/-- C6 counterexample: for a routed event whose resolved message has empty
text, the pipeline does NOT proceed to enrichment, attachment extraction,
field building, or submission (the claim says it still does): it returns
`False` with an empty call trace — not even the enrichment lookups run. -/
theorem c6_empty_text_counterexample :
    handle_reaction_added c6Env
      { type := some "reaction_added", reaction := some "fedex", user := some "U1",
        item := some { channel := some "C1", ts := some "2.0", thread_ts := none } }
      = (false, []) := by
  rfl

/-- C6 amended: a routed, field-valid, resolved event whose message text is
empty is treated as a failure — `handle_reaction_added` stops at the
empty-text check and returns `False` with no further outbound calls. -/
theorem c6_empty_text_amended (env : Env) (event : ReactionEvent) (cfg : EmojiConfig)
    (u c ts : String) (msg : SlackMessage) (via : FoundVia)
    (hr : lookupEmojiConfig event.reaction = some cfg)
    (hu : event.user = some u) (hu2 : u.isEmpty = false)
    (hc : (event.item.getD default).channel = some c) (hc2 : c.isEmpty = false)
    (ht : (event.item.getD default).ts = some ts) (ht2 : ts.isEmpty = false)
    (hm : get_message_info env c ts = some (msg, via))
    (htext : msg.text = "") :
    handle_reaction_added env event = (false, []) := by
  unfold handle_reaction_added
  rw [hr]
  dsimp only
  rw [hu, hc, ht]
  dsimp only
  simp only [hu2, hc2, ht2, Bool.or_self, Bool.or_false, Bool.false_or, if_false]
  rw [hm]
  dsimp only
  rw [htext]
  rfl

/-- C6 witness: instantiation of the amended empty-text theorem. -/
theorem c6_empty_text_amended_witness :
    handle_reaction_added c6Env
      { type := some "reaction_added", reaction := some "papercut-small", user := some "U1",
        item := some { channel := some "C1", ts := some "2.0", thread_ts := none } }
      = (false, []) :=
  c6_empty_text_amended c6Env _
    ⟨"airtable_base_id", "airtable_table_name", "airtable_field_name", some "sm", none⟩
    "U1" "C1" "2.0" emptyTextMessage .top_level rfl rfl rfl rfl rfl rfl rfl rfl rfl

/-- The claim's formulation of the thread fallback: the first reply whose
timestamp equals the target, scanning the windowed messages in returned
order (only those with nonzero reply count and an accessible thread) and the
replies of each thread in reply order. -/
def firstThreadMatch (env : Env) (channel_id message_ts : String)
    (window : List SlackMessage) : Option SlackMessage :=
  (window.filterMap fun parent =>
    if parent.reply_count > 0 then
      match env.threadReplies channel_id parent.ts with
      | .ok thread => thread.find? (fun tm => tm.ts == message_ts)
      | .error _ => none
    else none).head?

/-- The recursive scan of the source equals the first-match formulation. -/
theorem scanThreads_eq_firstThreadMatch (env : Env) (c ts : String)
    (window : List SlackMessage) :
    scanThreads env c ts window = firstThreadMatch env c ts window := by
  induction window with
  | nil => rfl
  | cons parent rest ih =>
    unfold scanThreads firstThreadMatch
    by_cases hrc : parent.reply_count > 0
    · simp only [hrc, if_true]
      cases htr : env.threadReplies c parent.ts with
      | error e =>
        simp [List.filterMap_cons, hrc, htr, ih, firstThreadMatch]
      | ok thread =>
        cases hf : thread.find? (fun tm => tm.ts == ts) with
        | none => simp [List.filterMap_cons, hrc, htr, hf, ih, firstThreadMatch]
        | some tm => simp [List.filterMap_cons, hrc, htr, hf]
    · simp [List.filterMap_cons, hrc, ih, firstThreadMatch]

/-- C4: `get_message_info` first attempts the direct inclusive size-1 fetch
anchored at the timestamp and returns its head tagged `top_level` when the
response is nonempty; when that response is empty it fetches the recent
window (the limit-100 request) and returns the first thread reply whose
timestamp equals the target — scanning window messages in returned order and
replies in reply order — tagged `thread`, or `none` when no scanned thread
contains a match. -/
theorem c4_resolver_characterization (env : Env) (c ts : String) :
    (∀ m rest, env.historyAnchored c ts = .ok (m :: rest) →
      get_message_info env c ts = some (m, .top_level)) ∧
    (env.historyAnchored c ts = .ok [] →
      ∀ window, env.historyRecent c = .ok window →
        get_message_info env c ts
          = (firstThreadMatch env c ts window).map (fun tm => (tm, .thread))) := by
  constructor
  · intro m rest h
    unfold get_message_info
    rw [h]
  · intro h window hw
    unfold get_message_info
    rw [h]
    dsimp only
    rw [hw]
    dsimp only
    rw [← scanThreads_eq_firstThreadMatch]
    cases hsc : scanThreads env c ts window with
    | none => rfl
    | some tm => rfl

/-- A thread parent in the recent window for the C4 witness. -/
def threadParentMsg : SlackMessage :=
  { ts := "10.0", text := "parent", user := some "U3", thread_ts := none,
    reply_count := 1, files := [] }

/-- A thread reply (the resolution target) for the C4 witness. -/
def threadReplyMsg : SlackMessage :=
  { ts := "11.5", text := "the reply", user := some "U4", thread_ts := some "10.0",
    reply_count := 0, files := [] }

/-- Environment where the target exists only as a thread reply. -/
def c4Env : Env :=
  { sampleEnv with
    historyAnchored := fun _ _ => .ok [],
    historyRecent := fun _ => .ok [threadParentMsg],
    threadReplies := fun _ _ => .ok [threadParentMsg, threadReplyMsg] }

/-- C4 witness: a message present only as a thread reply resolves via the
fallback scan, tagged `thread`. -/
theorem c4_resolver_characterization_witness :
    get_message_info c4Env "C1" "11.5" = some (threadReplyMsg, .thread) := by
  have h := (c4_resolver_characterization c4Env "C1" "11.5").2 rfl [threadParentMsg] rfl
  rw [h]
  rfl

/-- When every attachment dict carries a filename and content and every
upload succeeds, `upload_attachments` returns one `AttachmentRef` per input,
in order (it is a `filterMap` that drops nothing). -/
theorem upload_all_ok_length (env : Env) :
    ∀ atts : List PyAttachment,
      (∀ a ∈ atts, ∃ fn content url, a.filename = some fn ∧ a.content = some content ∧
        env.upload fn content = some url) →
      (AirtableClient.upload_attachments env atts).length = atts.length := by
  intro atts
  induction atts with
  | nil => intro _; rfl
  | cons a rest ih =>
    intro hok
    obtain ⟨fn, content, url, hfn, hcontent, hurl⟩ := hok a (by simp)
    have hrest := ih (fun x hx => hok x (by simp [hx]))
    unfold AirtableClient.upload_attachments at hrest ⊢
    simp [List.filterMap_cons, hfn, hcontent, hurl, hrest]

/-- `create_record` always hands exactly its field map to `table.create`. -/
theorem storeCreates_create_record (env : Env) (fields : Fields) :
    storeCreates (AirtableClient.create_record env fields).2 = [fields] := by
  unfold AirtableClient.create_record
  split <;> simp [storeCreates]

/-- Five image attachments, in order, each with a filename and content. -/
def fiveAttachments : List PyAttachment :=
  [⟨some "a1.png", some [1], none⟩, ⟨some "a2.png", some [2], none⟩,
   ⟨some "a3.png", some [3], none⟩, ⟨some "a4.png", some [4], none⟩,
   ⟨some "a5.png", some [5], none⟩]

/-- Base fields for the C7 record. -/
def c7Fields : Fields := [("Description", .text "five screenshots")]

/-- C7 counterexample: with 5 image attachments the builder places ALL 5
AttachmentRefs into the single `"Screenshot"` field of the one submitted
record — there is no `multi_attachment_field` flag on any destination rule
(the `EmojiConfig` structure has no such field), no placement of the first 3
into three distinct single-image fields, and no dropping of the rest, so
the claimed `multi_attachment_field = false` behaviour occurs for no rule. -/
theorem c7_attachment_shape_counterexample :
    storeCreates (AirtableClient.create_record_with_attachments sampleEnv c7Fields
        fiveAttachments "Screenshot").2
      = [[("Description", .text "five screenshots"),
          ("Screenshot", .attachments
            [⟨"https://content.airtable.com/a1.png", "a1.png"⟩,
             ⟨"https://content.airtable.com/a2.png", "a2.png"⟩,
             ⟨"https://content.airtable.com/a3.png", "a3.png"⟩,
             ⟨"https://content.airtable.com/a4.png", "a4.png"⟩,
             ⟨"https://content.airtable.com/a5.png", "a5.png"⟩])]] := by
  rfl

/-- C7 amended: the Record Builder supports exactly one destination shape:
when the attachments all upload successfully it places one `AttachmentRef`
per attachment — none capped, none dropped, order preserved by construction —
into the single `attachment_field` key (default `"Screenshot"`) of the one
field map handed to `table.create`; no `multi_attachment_field` flag exists. -/
theorem c7_attachment_shape_amended (env : Env) (fields : Fields)
    (atts : List PyAttachment) (fld : String)
    (hne : atts ≠ [])
    (hok : ∀ a ∈ atts, ∃ fn content url, a.filename = some fn ∧ a.content = some content ∧
      env.upload fn content = some url) :
    (AirtableClient.upload_attachments env atts).length = atts.length ∧
      storeCreates (AirtableClient.create_record_with_attachments env fields atts fld).2
        = [dictInsert fields fld (.attachments (AirtableClient.upload_attachments env atts))] := by
  have hlen := upload_all_ok_length env atts hok
  refine ⟨hlen, ?_⟩
  have hie : atts.isEmpty = false := by
    cases atts with
    | nil => exact absurd rfl hne
    | cons a l => rfl
  have hie2 : (AirtableClient.upload_attachments env atts).isEmpty = false := by
    cases hu : AirtableClient.upload_attachments env atts with
    | nil =>
      rw [hu] at hlen
      cases atts with
      | nil => exact absurd rfl hne
      | cons a l => simp at hlen
    | cons b l => rfl
  unfold AirtableClient.create_record_with_attachments
  simp only [hie, hie2, Bool.not_false, if_true]
  exact storeCreates_create_record env _

/-- C7 witness: instantiation of the amended single-shape theorem at the
five-attachment input. -/
theorem c7_attachment_shape_amended_witness :
    (AirtableClient.upload_attachments sampleEnv fiveAttachments).length
        = fiveAttachments.length ∧
      storeCreates (AirtableClient.create_record_with_attachments sampleEnv c7Fields
          fiveAttachments "Screenshot").2
        = [dictInsert c7Fields "Screenshot"
            (.attachments (AirtableClient.upload_attachments sampleEnv fiveAttachments))] := by
  refine c7_attachment_shape_amended sampleEnv c7Fields fiveAttachments "Screenshot"
    (by decide) ?_
  intro a ha
  simp only [fiveAttachments, List.mem_cons, List.not_mem_nil, or_false] at ha
  rcases ha with rfl | rfl | rfl | rfl | rfl <;> exact ⟨_, _, _, rfl, rfl, rfl⟩
